import Mathlib

/-!
Shallow embedding of the AI-AffiliateAI-Back core: the gateway router
(`app/api/universal` handlers GET and POST), the bridge services
(`neural-bridge.js` / affiliate bridge: `addActivity`, `/metrics`,
`/optimize`, `/activities`) and the client fetch adapter
(`useUniversalFetcher.fetchUniversal`).

JSON values are modelled by an inductive `Json`; JavaScript objects by
association lists of fields in insertion order.  Machine effects are made
explicit: the upstream of the gateway is an oracle from outbound calls to
results, a thrown JavaScript exception is `Except.error`, and React state
setters become explicit record updates.
-/

/-- JSON values.  Numbers are `Int`: every numeric literal the claims touch
is integral, and the bridge code only stores `Date.now()` (an integer). -/
inductive Json where
  | null : Json
  | bool : Bool → Json
  | num : Int → Json
  | str : String → Json
  | arr : List Json → Json
  | obj : List (String × Json) → Json

/-- Field lookup on a JavaScript object: first occurrence of the key.
Objects built by `objInsert` have unique keys, as real JS objects do. -/
def objGet : List (String × Json) → String → Option Json
  | [], _ => none
  | p :: rest, k => if p.1 = k then some p.2 else objGet rest k

/-- JavaScript property assignment `o[k] = v` inside an object literal:
if the key exists its value is updated in place, otherwise the field is
appended at the end. -/
def objInsert : List (String × Json) → String → Json → List (String × Json)
  | [], k, v => [(k, v)]
  | p :: rest, k, v => if p.1 = k then (k, v) :: rest else p :: objInsert rest k v

/-- JavaScript object spread `{ ...base, ...fields }`: each field of
`fields` is assigned into `base` in order. -/
def objSpread (base fields : List (String × Json)) : List (String × Json) :=
  fields.foldl (fun acc p => objInsert acc p.1 p.2) base

/-- The value the spread of `fields` leaves under key `k`: the value of the
last occurrence of `k` in `fields`, when there is one. -/
def lookupLast : List (String × Json) → String → Option Json
  | [], _ => none
  | p :: rest, k =>
    match lookupLast rest k with
    | some v => some v
    | none => if p.1 = k then some p.2 else none

/-- The record built by `addActivity`:
`activities.unshift({ type, ...payload, timestamp: Date.now() })`, i.e.
the object literal starts with the `type` field, spreads the payload over
it, then assigns `timestamp`. -/
def mkActivityRecord (ty : String) (payload : List (String × Json)) (ts : Int) :
    List (String × Json) :=
  objInsert (objSpread [("type", Json.str ty)] payload) "timestamp" (Json.num ts)

/-- `addActivity` in the bridge services: `unshift` the new record, then
`if (activities.length > 20) activities.length = 20` truncates to the first
20 records. -/
def addActivity (log : List (List (String × Json))) (r : List (String × Json)) :
    List (List (String × Json)) :=
  let l := r :: log
  if l.length > 20 then l.take 20 else l

/-- Bridge-service state: the module-level `activities` array, newest first. -/
structure BridgeState where
  activities : List (List (String × Json))

/-- `GET /metrics` handler: replies with a freshly computed metrics snapshot
(which reads no service state) and then calls `addActivity("metrics-served")`
with the default empty payload.  Only the state effect matters to the log. -/
def handleMetrics (now : Int) (s : BridgeState) : BridgeState :=
  { activities := addActivity s.activities (mkActivityRecord "metrics-served" [] now) }

/-- `POST /optimize` handler: `addActivity("optimize-triggered", req.body)`
then `res.json({ success: true, message: <domain message> })`. -/
def handleOptimize (msg : String) (now : Int) (body : List (String × Json))
    (s : BridgeState) : BridgeState × Json :=
  ({ activities := addActivity s.activities (mkActivityRecord "optimize-triggered" body now) },
   Json.obj [("success", Json.bool true), ("message", Json.str msg)])

/-- `GET /activities` handler: `res.json({ activities })` — replies with the
current log and touches no state. -/
def handleActivities (s : BridgeState) : BridgeState × List (List (String × Json)) :=
  (s, s.activities)

/-- A request a bridge service can handle, with the wall-clock instant of
handling where the handler reads `Date.now()`. -/
inductive BridgeRequest where
  | metrics : Int → BridgeRequest
  | optimize : Int → List (String × Json) → BridgeRequest
  | activities : BridgeRequest

/-- One handled request, as a state transformer. -/
def bridgeStep (s : BridgeState) : BridgeRequest → BridgeState
  | .metrics now => handleMetrics now s
  | .optimize now body => (handleOptimize "Affiliate optimization started!" now body s).1
  | .activities => (handleActivities s).1

/-- A sequence of handled requests from a given state. -/
def bridgeRun (reqs : List BridgeRequest) (s : BridgeState) : BridgeState :=
  reqs.foldl bridgeStep s

/-- A sequence of `GET /metrics` calls at the given instants. -/
def runMetricsCalls (times : List Int) (s : BridgeState) : BridgeState :=
  times.foldl (fun s t => handleMetrics t s) s

/-! ### Gateway router -/

/-- HTTP method of an outbound call. -/
inductive Method where
  | get : Method
  | post : Method
deriving DecidableEq

/-- One outbound call issued by the gateway (`fetch(url, ...)`). -/
structure OutboundCall where
  method : Method
  url : String
  body : Option String

/-- What awaiting `fetch` and then `res.json()` can do: resolve with a
status and a parsed JSON body, reject at `fetch` (network failure), or
reject at `res.json()` (body not valid JSON). -/
inductive UpstreamResult where
  | ok : Nat → Json → UpstreamResult
  | fetchThrow : String → UpstreamResult
  | parseThrow : String → UpstreamResult

/-- An HTTP response produced by the gateway handler itself. -/
structure GatewayResponse where
  status : Nat
  body : Json

/-- The gateway's 400 reply `{ error: "No target specified" }`. -/
def noTargetResponse : GatewayResponse :=
  { status := 400, body := Json.obj [("error", Json.str "No target specified")] }

/-- `GET /api/universal` handler.  `target` is
`req.nextUrl.searchParams.get("target")` (`none` when absent); `!target`
is true for both `null` and the empty string.  Returns the list of
outbound calls issued and either a response (`Except.ok`) or an exception
escaping the handler (`Except.error`).  `NextResponse.json(data)` replies
with status 200. -/
def universalGET (backendUrl : String) (target : Option String)
    (upstream : OutboundCall → UpstreamResult) :
    List OutboundCall × Except String GatewayResponse :=
  match target with
  | none => ([], Except.ok noTargetResponse)
  | some t =>
    if t = "" then ([], Except.ok noTargetResponse)
    else
      let call : OutboundCall := { method := Method.get, url := backendUrl ++ "/" ++ t, body := none }
      match upstream call with
      | .ok _status data => ([call], Except.ok { status := 200, body := data })
      | .fetchThrow m => ([call], Except.error m)
      | .parseThrow m => ([call], Except.error m)

/-- `POST /api/universal` handler: same validation, then forwards the raw
request body via `POST` and relays the parsed JSON reply with status 200. -/
def universalPOST (backendUrl : String) (target : Option String) (reqBody : String)
    (upstream : OutboundCall → UpstreamResult) :
    List OutboundCall × Except String GatewayResponse :=
  match target with
  | none => ([], Except.ok noTargetResponse)
  | some t =>
    if t = "" then ([], Except.ok noTargetResponse)
    else
      let call : OutboundCall := { method := Method.post, url := backendUrl ++ "/" ++ t, body := some reqBody }
      match upstream call with
      | .ok _status data => ([call], Except.ok { status := 200, body := data })
      | .fetchThrow m => ([call], Except.error m)
      | .parseThrow m => ([call], Except.error m)

/-! ### Client fetch adapter -/

/-- The hook's state triple `loading` / `error` / `data`. -/
structure FetchState where
  loading : Bool
  error : Option String
  data : Option Json

/-- What the awaited `fetch` can produce for the adapter: a response whose
body either parses as JSON or throws at `res.json()`, or a rejection of
`fetch` itself. -/
inductive FetchResult where
  | responded : Nat → Except String Json → FetchResult
  | netError : String → FetchResult

/-- `Response.ok`: status in the range 200–299. -/
def resOk (status : Nat) : Bool :=
  decide (200 ≤ status) && decide (status < 300)

/-- `fetchUniversal`: sets `loading`, clears `error` and `data`; throws
`Error("API error")` when `!res.ok` (before reading the body); on success
stores and returns the parsed JSON; the `catch` stores the error message
and re-throws; the `finally` clears `loading` on every path. -/
def fetchUniversal (_s : FetchState) (result : FetchResult) :
    FetchState × Except String Json :=
  let started : FetchState := { loading := true, error := none, data := none }
  match result with
  | .netError m =>
    ({ started with loading := false, error := some m }, Except.error m)
  | .responded status bodyRes =>
    if resOk status then
      match bodyRes with
      | .ok j => ({ started with loading := false, data := some j }, Except.ok j)
      | .error m => ({ started with loading := false, error := some m }, Except.error m)
    else
      ({ started with loading := false, error := some "API error" }, Except.error "API error")

/-- A `FetchResult` that is a failure for the adapter: network rejection,
body-parse rejection, or a non-2xx status. -/
def isFailure : FetchResult → Bool
  | .netError _ => true
  | .responded _ (.error _) => true
  | .responded st (.ok _) => !(resOk st)

/-! ### Helper lemmas on objects and the activity log -/

theorem objGet_objInsert (l : List (String × Json)) (k' : String) (v : Json) (k : String) :
    objGet (objInsert l k' v) k = if k = k' then some v else objGet l k := by
  induction l with
  | nil => simp [objInsert, objGet, eq_comm]
  | cons p rest ih =>
    simp only [objInsert]
    split
    · rename_i hp
      simp only [objGet, hp]
      by_cases hk : k = k' <;> simp [hk, Ne.symm, eq_comm]
    · rename_i hp
      simp only [objGet, ih]
      by_cases hpk : p.1 = k
      · have hkk : ¬ k = k' := fun h => hp (hpk.trans h)
        simp [hpk, hkk]
      · simp [hpk]

theorem objGet_objSpread (B base : List (String × Json)) (k : String) :
    objGet (objSpread base B) k =
      match lookupLast B k with
      | some v => some v
      | none => objGet base k := by
  induction B generalizing base with
  | nil => simp [objSpread, lookupLast]
  | cons p rest ih =>
    show objGet (objSpread (objInsert base p.1 p.2) rest) k = _
    rw [ih]
    cases h : lookupLast rest k with
    | some v => simp [lookupLast, h]
    | none =>
      simp only [lookupLast, h, objGet_objInsert]
      by_cases hk : k = p.1
      · simp [hk]
      · rw [if_neg hk, if_neg (fun hh => hk (Eq.symm hh))]

theorem lookupLast_eq_none (B : List (String × Json)) (k : String)
    (h : k ∉ B.map Prod.fst) : lookupLast B k = none := by
  induction B with
  | nil => rfl
  | cons p rest ih =>
    simp only [List.map_cons, List.mem_cons] at h
    push_neg at h
    simp [lookupLast, ih h.2, Ne.symm h.1]

theorem addActivity_eq_take (log : List (List (String × Json))) (r : List (String × Json)) :
    log.length ≤ 20 → addActivity log r = (r :: log).take 20 := by
  intro h
  simp only [addActivity]
  split
  · rfl
  · rename_i h2
    rw [not_lt] at h2
    exact (List.take_of_length_le h2).symm

theorem addActivity_length (log : List (List (String × Json))) (r : List (String × Json)) :
    (addActivity log r).length ≤ 20 := by
  simp only [addActivity]
  split
  · exact List.length_take_le 20 _
  · rename_i h
    rw [not_lt] at h
    exact h

theorem addActivity_head (log : List (List (String × Json))) (r : List (String × Json)) :
    (addActivity log r).head? = some r := by
  simp only [addActivity]
  split
  · rw [show (20 : Nat) = 19 + 1 from rfl, List.take_succ_cons]
    rfl
  · rfl

theorem addActivity_at_cap (log : List (List (String × Json))) (r : List (String × Json))
    (h : log.length = 20) : addActivity log r = r :: log.dropLast := by
  rw [addActivity_eq_take log r (le_of_eq h)]
  rw [show (20 : Nat) = 19 + 1 from rfl, List.take_succ_cons]
  congr 1
  rw [List.dropLast_eq_take, h]

theorem bridgeStep_length_le (s : BridgeState) (r : BridgeRequest)
    (h : s.activities.length ≤ 20) : (bridgeStep s r).activities.length ≤ 20 := by
  cases r with
  | metrics now => exact addActivity_length _ _
  | optimize now body => exact addActivity_length _ _
  | activities => exact h

theorem bridgeRun_length_le (reqs : List BridgeRequest) (s : BridgeState)
    (h : s.activities.length ≤ 20) : (bridgeRun reqs s).activities.length ≤ 20 := by
  induction reqs generalizing s with
  | nil => exact h
  | cons r rest ih => exact ih (bridgeStep s r) (bridgeStep_length_le s r h)

theorem runMetricsCalls_from_empty (ts : List Int) :
    (runMetricsCalls ts ⟨[]⟩).activities =
      ((ts.map (fun t => mkActivityRecord "metrics-served" [] t)).reverse).take 20 := by
  induction ts using List.reverseRecOn with
  | nil => rfl
  | append_singleton ts t ih =>
    have hfold : runMetricsCalls (ts ++ [t]) ⟨[]⟩ =
        handleMetrics t (runMetricsCalls ts ⟨[]⟩) := by
      simp [runMetricsCalls, List.foldl_append]
    rw [hfold]
    have hlen : (runMetricsCalls ts ⟨[]⟩).activities.length ≤ 20 := by
      rw [ih]; exact List.length_take_le 20 _
    show addActivity (runMetricsCalls ts ⟨[]⟩).activities _ = _
    rw [addActivity_eq_take _ _ hlen, ih]
    rw [List.map_append, List.reverse_append]
    simp only [List.map_cons, List.map_nil, List.reverse_cons, List.reverse_nil,
      List.nil_append, List.singleton_append]
    rw [show (20 : Nat) = 19 + 1 from rfl, List.take_succ_cons, List.take_succ_cons,
      List.take_take]
    rfl

/-! ### Claim theorems -/

/-- C1: for every non-empty target string `X`, `GET /api/universal?target=X`
issues exactly one outbound `GET` to `<BACKEND_URL>/X` and relays the
upstream JSON body unchanged with HTTP 200, whatever the upstream's own
status code was. -/
theorem universal_get_forwards_verbatim (bu X : String)
    (up : OutboundCall → UpstreamResult) (st : Nat) (body : Json)
    (hX : X ≠ "")
    (hup : up { method := Method.get, url := bu ++ "/" ++ X, body := none } =
      UpstreamResult.ok st body) :
    universalGET bu (some X) up =
      ([{ method := Method.get, url := bu ++ "/" ++ X, body := none }],
       Except.ok { status := 200, body := body }) := by
  simp [universalGET, hX, hup]

theorem universal_get_forwards_verbatim_witness :
    universalGET "http://localhost:8000" (some "affiliate/metrics")
        (fun _ => UpstreamResult.ok 500 (Json.obj [("x", Json.num 1)])) =
      ([{ method := Method.get, url := "http://localhost:8000/affiliate/metrics",
          body := none }],
       Except.ok { status := 200, body := Json.obj [("x", Json.num 1)] }) :=
  universal_get_forwards_verbatim "http://localhost:8000" "affiliate/metrics"
    (fun _ => UpstreamResult.ok 500 (Json.obj [("x", Json.num 1)])) 500
    (Json.obj [("x", Json.num 1)]) (by decide) rfl

/-- C2: for every gateway request, GET or POST, whose `target` query
parameter is absent or empty, the handler replies 400 with
`{ error: "No target specified" }` and issues no outbound call. -/
theorem gateway_missing_target_rejected (bu rb : String)
    (up : OutboundCall → UpstreamResult) :
    noTargetResponse.status = 400 ∧
    noTargetResponse.body = Json.obj [("error", Json.str "No target specified")] ∧
    universalGET bu none up = ([], Except.ok noTargetResponse) ∧
    universalGET bu (some "") up = ([], Except.ok noTargetResponse) ∧
    universalPOST bu none rb up = ([], Except.ok noTargetResponse) ∧
    universalPOST bu (some "") rb up = ([], Except.ok noTargetResponse) :=
  ⟨rfl, rfl, rfl, rfl, rfl, rfl⟩

/-- C3, counterexample: with a valid target and an upstream whose `fetch`
rejects, the GET handler does not return any response at all — the
exception escapes the handler — refuting the claim that the failure is
caught and turned into a structured `GatewayError` response. -/
theorem gateway_catch_claim_cex :
    ¬ ∃ r, (universalGET "http://localhost:8000" (some "neural/metrics")
        (fun _ => UpstreamResult.fetchThrow "fetch failed")).2 = Except.ok r := by
  rintro ⟨r, h⟩
  simp [universalGET] at h

/-- C3, amended: the handlers have no try/catch; when the upstream call
throws (network failure at `fetch` or malformed JSON at `res.json()`),
the exception propagates out of the handler uncaught, and no response —
structured or otherwise — is produced by the gateway code. -/
theorem gateway_upstream_throw_escapes (bu t rb m : String)
    (up : OutboundCall → UpstreamResult) (ht : t ≠ "") :
    ((up { method := Method.get, url := bu ++ "/" ++ t, body := none } =
        UpstreamResult.fetchThrow m ∨
      up { method := Method.get, url := bu ++ "/" ++ t, body := none } =
        UpstreamResult.parseThrow m) →
      (universalGET bu (some t) up).2 = Except.error m) ∧
    ((up { method := Method.post, url := bu ++ "/" ++ t, body := some rb } =
        UpstreamResult.fetchThrow m ∨
      up { method := Method.post, url := bu ++ "/" ++ t, body := some rb } =
        UpstreamResult.parseThrow m) →
      (universalPOST bu (some t) rb up).2 = Except.error m) := by
  constructor
  · rintro (h | h) <;> simp [universalGET, ht, h]
  · rintro (h | h) <;> simp [universalPOST, ht, h]

theorem gateway_upstream_throw_escapes_witness :
    (universalGET "http://localhost:8000" (some "neural/activities")
        (fun _ => UpstreamResult.parseThrow "invalid json")).2 =
      Except.error "invalid json" :=
  (gateway_upstream_throw_escapes "http://localhost:8000" "neural/activities"
    "" "invalid json" (fun _ => UpstreamResult.parseThrow "invalid json")
    (by decide)).1 (Or.inr rfl)

/-- C7: whenever the underlying response is a failure (non-2xx status,
parse error, or network error), the adapter ends with `data = null`,
`error` populated, `loading = false`, and the error re-thrown to the
caller with the same message. -/
theorem fetch_adapter_failure_state (s : FetchState) (r : FetchResult)
    (h : isFailure r = true) :
    (fetchUniversal s r).1.data = none ∧
    (fetchUniversal s r).1.error ≠ none ∧
    (fetchUniversal s r).1.loading = false ∧
    ∃ m, (fetchUniversal s r).2 = Except.error m ∧
      (fetchUniversal s r).1.error = some m := by
  cases r with
  | netError m => exact ⟨rfl, by simp [fetchUniversal], rfl, m, rfl, rfl⟩
  | responded st br =>
    cases br with
    | ok j =>
      have hok : resOk st = false := by
        simpa [isFailure] using h
      refine ⟨?_, ?_, ?_, "API error", ?_, ?_⟩ <;> simp [fetchUniversal, hok]
    | error m =>
      by_cases hok : resOk st = true
      · exact ⟨by simp [fetchUniversal, hok], by simp [fetchUniversal, hok],
          by simp [fetchUniversal, hok], m, by simp [fetchUniversal, hok],
          by simp [fetchUniversal, hok]⟩
      · rw [Bool.not_eq_true] at hok
        exact ⟨by simp [fetchUniversal, hok], by simp [fetchUniversal, hok],
          by simp [fetchUniversal, hok], "API error", by simp [fetchUniversal, hok],
          by simp [fetchUniversal, hok]⟩

theorem fetch_adapter_failure_state_witness :
    (fetchUniversal { loading := false, error := none, data := none }
        (FetchResult.responded 500 (Except.ok Json.null))).1.data = none ∧
    (fetchUniversal { loading := false, error := none, data := none }
        (FetchResult.responded 500 (Except.ok Json.null))).1.loading = false :=
  have h := fetch_adapter_failure_state
    { loading := false, error := none, data := none }
    (FetchResult.responded 500 (Except.ok Json.null)) (by decide)
  ⟨h.1, h.2.2.1⟩

/-- C8: on every completed invocation — success, HTTP error, parse error
or network error — the `finally` clears `loading`. -/
theorem fetch_adapter_clears_loading (s : FetchState) (r : FetchResult) :
    (fetchUniversal s r).1.loading = false := by
  cases r with
  | netError m => rfl
  | responded st br =>
    cases br <;> by_cases hok : resOk st = true <;> simp [fetchUniversal, hok]

/-- C10: every non-2xx HTTP response yields the fixed error message
"API error", independent of the status code and of the body; network and
parse failures instead store their own exception message. -/
theorem fetch_adapter_fixed_http_error (s : FetchState) (st : Nat)
    (br : Except String Json) (h : resOk st = false) :
    (fetchUniversal s (FetchResult.responded st br)).1.error = some "API error" ∧
    (fetchUniversal s (FetchResult.responded st br)).2 = Except.error "API error" ∧
    (∀ m, (fetchUniversal s (FetchResult.netError m)).1.error = some m) ∧
    (∀ m st2, resOk st2 = true →
      (fetchUniversal s (FetchResult.responded st2 (Except.error m))).1.error = some m) := by
  refine ⟨by simp [fetchUniversal, h], by simp [fetchUniversal, h],
    fun m => rfl, fun m st2 h2 => by simp [fetchUniversal, h2]⟩

theorem fetch_adapter_fixed_http_error_witness :
    (fetchUniversal { loading := true, error := some "old", data := some Json.null }
        (FetchResult.responded 404 (Except.ok (Json.str "not found")))).1.error =
      some "API error" :=
  (fetch_adapter_fixed_http_error
    { loading := true, error := some "old", data := some Json.null } 404
    (Except.ok (Json.str "not found")) (by decide)).1

/-- C4: the activity log never exceeds 20 records under any sequence of
handled requests; an insertion at capacity keeps the new record plus all
but the oldest; and after exactly 25 `GET /metrics` calls on a fresh
service, `GET /activities` returns exactly 20 records — the last 20 calls
newest-first, the oldest 5 evicted. -/
theorem activity_log_bounded_and_evicts :
    (∀ reqs : List BridgeRequest, (bridgeRun reqs ⟨[]⟩).activities.length ≤ 20) ∧
    (∀ (log : List (List (String × Json))) (r : List (String × Json)),
      log.length = 20 → addActivity log r = r :: log.dropLast) ∧
    (∀ ts : List Int, ts.length = 25 →
      (handleActivities (runMetricsCalls ts ⟨[]⟩)).2 =
        ((ts.drop 5).map (fun t => mkActivityRecord "metrics-served" [] t)).reverse ∧
      (handleActivities (runMetricsCalls ts ⟨[]⟩)).2.length = 20) := by
  refine ⟨fun reqs => bridgeRun_length_le reqs ⟨[]⟩ (by simp),
    fun log r h => addActivity_at_cap log r h, fun ts h => ?_⟩
  have hmain : (handleActivities (runMetricsCalls ts ⟨[]⟩)).2 =
      ((ts.drop 5).map (fun t => mkActivityRecord "metrics-served" [] t)).reverse := by
    show (runMetricsCalls ts ⟨[]⟩).activities = _
    rw [runMetricsCalls_from_empty, List.take_reverse, List.length_map, h]
    simp [List.map_drop]
  exact ⟨hmain, by rw [hmain]; simp [h]⟩

/-- Concrete inputs for the eviction witness: a log holding exactly 20
records, and 25 metrics-call instants. -/
def sampleLog : List (List (String × Json)) :=
  (List.range 20).map (fun i => mkActivityRecord "metrics-served" [] (Int.ofNat i))

def sampleTimes : List Int := (List.range 25).map (fun i => Int.ofNat i)

theorem activity_log_bounded_and_evicts_witness :
    addActivity sampleLog (mkActivityRecord "optimize-triggered" [] 99) =
      mkActivityRecord "optimize-triggered" [] 99 :: sampleLog.dropLast ∧
    (handleActivities (runMetricsCalls sampleTimes ⟨[]⟩)).2.length = 20 :=
  ⟨activity_log_bounded_and_evicts.2.1 sampleLog _ (by simp [sampleLog]),
   (activity_log_bounded_and_evicts.2.2 sampleTimes (by simp [sampleTimes])).2⟩

/-- C5, counterexample: for body `{"foo":1}` the stored record carries no
`payload` field at all — its keys are spread at top level — so the
record's `payload` does not equal the received body. -/
theorem optimize_payload_field_cex :
    objGet (mkActivityRecord "optimize-triggered" [("foo", Json.num 1)] 1234)
        "payload" = none ∧
    ¬ objGet (mkActivityRecord "optimize-triggered" [("foo", Json.num 1)] 1234)
        "payload" = some (Json.obj [("foo", Json.num 1)]) := by
  refine ⟨rfl, fun h => ?_⟩
  rw [show objGet (mkActivityRecord "optimize-triggered" [("foo", Json.num 1)] 1234)
      "payload" = none from rfl] at h
  exact Option.noConfusion h

/-- C5, amended: `POST /optimize` appends a record whose fields are the
received body's keys spread at the top level alongside `type`
(defaulting to "optimize-triggered") and `timestamp` — there is no
`payload` wrapper — and replies `{ success: true, message: ... }`. -/
theorem optimize_spreads_body (msg : String) (now : Int)
    (B : List (String × Json)) (s : BridgeState) :
    (handleOptimize msg now B s).2 =
      Json.obj [("success", Json.bool true), ("message", Json.str msg)] ∧
    (handleOptimize msg now B s).1.activities.head? =
      some (mkActivityRecord "optimize-triggered" B now) ∧
    (∀ k v, k ≠ "timestamp" → lookupLast B k = some v →
      objGet (mkActivityRecord "optimize-triggered" B now) k = some v) ∧
    (lookupLast B "type" = none →
      objGet (mkActivityRecord "optimize-triggered" B now) "type" =
        some (Json.str "optimize-triggered")) ∧
    ("payload" ∉ B.map Prod.fst →
      objGet (mkActivityRecord "optimize-triggered" B now) "payload" = none) := by
  refine ⟨rfl, addActivity_head _ _, fun k v hk hv => ?_, fun h0 => ?_, fun hp => ?_⟩
  · unfold mkActivityRecord
    rw [objGet_objInsert, if_neg hk, objGet_objSpread, hv]
  · unfold mkActivityRecord
    rw [objGet_objInsert, if_neg (by decide), objGet_objSpread, h0]
    rfl
  · unfold mkActivityRecord
    rw [objGet_objInsert, if_neg (by decide), objGet_objSpread,
      lookupLast_eq_none B _ hp]
    rfl

theorem optimize_spreads_body_witness :
    (handleOptimize "Affiliate optimization started!" 1234
        [("campaign", Json.str "X")] ⟨[]⟩).2 =
      Json.obj [("success", Json.bool true),
        ("message", Json.str "Affiliate optimization started!")] ∧
    objGet (mkActivityRecord "optimize-triggered" [("campaign", Json.str "X")] 1234)
      "campaign" = some (Json.str "X") :=
  have h := optimize_spreads_body "Affiliate optimization started!" 1234
    [("campaign", Json.str "X")] ⟨[]⟩
  ⟨h.1, h.2.2.1 "campaign" (Json.str "X") (by decide) rfl⟩

/-- C6: `GET /activities` returns the log exactly as stored and leaves the
state untouched; the log is newest-first because every insertion places
the new record at the head. -/
theorem activities_endpoint_pure_newest_first :
    (∀ s : BridgeState, handleActivities s = (s, s.activities)) ∧
    (∀ (log : List (List (String × Json))) (r : List (String × Json)),
      (addActivity log r).head? = some r) :=
  ⟨fun _ => rfl, addActivity_head⟩

/-- C9: the stored record spreads the body's keys at top level: no
`payload` field is introduced, a `type` key in the body overrides the
record's type, and the `timestamp` field is set to the insertion time
even when the body supplies one. -/
theorem optimize_record_top_level_spread (B : List (String × Json)) (ts : Int) :
    ("payload" ∉ B.map Prod.fst →
      objGet (mkActivityRecord "optimize-triggered" B ts) "payload" = none) ∧
    (∀ v, lookupLast B "type" = some v →
      objGet (mkActivityRecord "optimize-triggered" B ts) "type" = some v) ∧
    objGet (mkActivityRecord "optimize-triggered" B ts) "timestamp" =
      some (Json.num ts) := by
  refine ⟨fun hp => ?_, fun v hv => ?_, ?_⟩
  · unfold mkActivityRecord
    rw [objGet_objInsert, if_neg (by decide), objGet_objSpread,
      lookupLast_eq_none B _ hp]
    rfl
  · unfold mkActivityRecord
    rw [objGet_objInsert, if_neg (by decide), objGet_objSpread, hv]
  · unfold mkActivityRecord
    rw [objGet_objInsert, if_pos rfl]

theorem optimize_record_top_level_spread_witness :
    objGet (mkActivityRecord "optimize-triggered"
        [("type", Json.str "custom"), ("timestamp", Json.num 1)] 777) "payload" =
      none ∧
    objGet (mkActivityRecord "optimize-triggered"
        [("type", Json.str "custom"), ("timestamp", Json.num 1)] 777) "type" =
      some (Json.str "custom") ∧
    objGet (mkActivityRecord "optimize-triggered"
        [("type", Json.str "custom"), ("timestamp", Json.num 1)] 777) "timestamp" =
      some (Json.num 777) :=
  have h := optimize_record_top_level_spread
    [("type", Json.str "custom"), ("timestamp", Json.num 1)] 777
  ⟨h.1 (by decide), h.2.1 (Json.str "custom") rfl, h.2.2⟩
